import Mathlib

/-!
Shallow embedding of `src/script.js` (Clueless Closet): the wardrobe
aggregate, its persistence layer over the browser-local store, the image
validation codec, and the import/export gateway.  DOM rendering and event
wiring are out of scope.  Effects are made explicit: the wall clock and the
per-item ISO timestamps are parameters, `Math.random` is a rational
parameter in `[0, 1)`, the local-storage slot is threaded as a value, the
outcome of a `localStorage.setItem` write is a parameter, and the
notifications shown by `showNotification` are returned as a list of
`(message, severity)` pairs.
-/

/-- The `(message, severity)` pair that `showNotification` receives. -/
abbrev Notification := String × String

/-- Constant `MAX_IMAGE_SIZE` from script.js line 3: the 5 MiB ceiling for one image. -/
def MAX_IMAGE_SIZE : Nat := 5 * 1024 * 1024

/-- A wardrobe item as built by `addItem` / `bulkImportImages` (script.js
lines 228-236 and 289-297). -/
structure Garment where
  id : Int
  brand : String
  name : String
  image : String
  link : Option String
  source : String
  uploadedAt : String
  deriving Repr, DecidableEq

/-- A saved pairing of one top and one bottom, as built by `saveOutfit`
(script.js lines 350-354). -/
structure Outfit where
  id : Int
  top : Garment
  bottom : Garment
  deriving Repr, DecidableEq

/-- The in-memory aggregate `app` of script.js lines 7-13. -/
structure AppState where
  topwear : List Garment
  bottomwear : List Garment
  selectedTop : Option Garment
  selectedBottom : Option Garment
  savedOutfits : List Outfit
  deriving Repr, DecidableEq

/-- The initial value of `app` (script.js lines 7-13). -/
def appInit : AppState :=
  { topwear := [], bottomwear := [], selectedTop := none,
    selectedBottom := none, savedOutfits := [] }

/-- A successfully parsed JSON object of the persisted/exported shape.  Both
`loadFromLocalStorage` and `importWardrobe` read only the three collection
fields, each of which may be absent (`config.topwear || []`); the timestamp
fields are written but never read back. -/
structure ParsedConfig where
  topwear : Option (List Garment)
  bottomwear : Option (List Garment)
  savedOutfits : Option (List Outfit)
  savedAt : Option String
  exportDate : Option String
  deriving Repr, DecidableEq

/-- The content of the single local-storage slot under `STORAGE_KEY`:
either text that parses to a config object, or text on which `JSON.parse`
throws. -/
inductive StoreContent where
  | good (config : ParsedConfig)
  | corrupt
  deriving Repr, DecidableEq

/-- The possible outcomes of the `localStorage.setItem` call inside
`saveToLocalStorage`: success, a `QuotaExceededError`, or any other
exception.  A throwing `setItem` leaves the slot unwritten. -/
inductive WriteOutcome where
  | success
  | quotaExceeded
  | otherError
  deriving Repr, DecidableEq

/-- Function `saveToLocalStorage` (script.js lines 34-53): serializes the three
collections plus `savedAt` into the slot; on a `QuotaExceededError` it shows
the free-up-space message, on any other error the generic message, and in
both failure cases the slot keeps its previous content.  The function never
assigns to `app`, so the aggregate is not an output. -/
def saveToLocalStorage (s : AppState) (savedAt : String) (outcome : WriteOutcome)
    (store : Option StoreContent) : Option StoreContent × List Notification :=
  match outcome with
  | .success =>
      (some (.good { topwear := some s.topwear, bottomwear := some s.bottomwear,
                     savedOutfits := some s.savedOutfits, savedAt := some savedAt,
                     exportDate := none }), [])
  | .quotaExceeded =>
      (store, [("⚠️ Storage limit exceeded! Delete some items to free up space.", "error")])
  | .otherError =>
      (store, [("✗ Error saving data", "error")])

/-- Function `loadFromLocalStorage` (script.js lines 58-75): no slot yields `false`
with nothing touched; a slot whose text fails `JSON.parse` yields `false`,
an error notification, and neither the slot nor `app` is modified (the
assignments to `app` come after the throwing parse); a parsed slot replaces
the three collections, each absent field defaulting to `[]`, and leaves the
selections alone. -/
def loadFromLocalStorage (s : AppState) (store : Option StoreContent) :
    AppState × Option StoreContent × Bool × List Notification :=
  match store with
  | none => (s, none, false, [])
  | some .corrupt =>
      (s, some .corrupt, false, [("✗ Error loading saved data", "error")])
  | some (.good config) =>
      ({ s with topwear := config.topwear.getD [],
                bottomwear := config.bottomwear.getD [],
                savedOutfits := config.savedOutfits.getD [] },
       some (.good config), true, [])

/-- Function `clearAllData` (script.js lines 90-101): behind a `confirm` prompt,
modelled as the boolean `confirmed`.  When confirmed it removes the slot and
resets every field of `app`; when declined nothing happens. -/
def clearAllData (confirmed : Bool) (s : AppState) (store : Option StoreContent) :
    AppState × Option StoreContent × List Notification :=
  if confirmed then
    ({ topwear := [], bottomwear := [], selectedTop := none,
       selectedBottom := none, savedOutfits := [] }, none,
     [("✓ All data cleared", "success")])
  else
    (s, store, [])

/-- The rounding of JavaScript `Math.round` on a non-negative value:
floor of the value plus one half. -/
def jsRound (q : ℚ) : ℤ := ⌊q + 1 / 2⌋

/-- Function `getStorageUsage` (script.js lines 20-29): `0` when the slot is empty,
otherwise `Math.round((stored.length / 1024 / 1024) * 100) / 100` on the
raw stored text. -/
def getStorageUsage (stored : Option String) : ℚ :=
  match stored with
  | none => 0
  | some text => (jsRound (((text.length : ℚ) / 1024 / 1024) * 100) : ℚ) / 100

/-- A file as handed over by the picker: declared media type, byte size,
file name, and the outcome of `fileToBase64` on it — `some dataUri` when the
asynchronous read resolves, `none` when it rejects (script.js lines
106-113). -/
structure ImageFile where
  type : String
  size : Nat
  name : String
  encodeResult : Option String
  deriving Repr, DecidableEq

/-- The list `validTypes` from script.js line 119. -/
def validTypes : List String := ["image/jpeg", "image/png"]

/-- Function `validateImageFile` (script.js lines 118-132): rejects a declared type
outside `validTypes` with the type message, then a byte size above
`MAX_IMAGE_SIZE` with the size message; otherwise accepts. -/
def validateImageFile (f : ImageFile) : Bool × List Notification :=
  if !(validTypes.contains f.type) then
    (false, [("✗ Only JPG and PNG images are supported", "error")])
  else if f.size > MAX_IMAGE_SIZE then
    (false, [("✗ Image must be smaller than 5MB", "error")])
  else
    (true, [])

/-- The index `Math.floor(Math.random() * n)` computed by `shuffleOutfit`,
with the `Math.random()` result `r` as a parameter. -/
def randomIndex (r : ℚ) (n : Nat) : Nat := (⌊r * (n : ℚ)⌋).toNat

/-- Function `shuffleOutfit` (script.js lines 330-339): with an empty topwear or
bottomwear collection it shows the error and returns with `app` untouched;
otherwise it assigns both selections from independently drawn random
indices (an out-of-range index — impossible for `r` in `[0, 1)` — would
yield the absent selection, as JavaScript indexing yields `undefined`). -/
def shuffleOutfit (s : AppState) (rTop rBottom : ℚ) : AppState × List Notification :=
  if s.topwear.length = 0 ∨ s.bottomwear.length = 0 then
    (s, [("Please add at least one top and one bottom first", "error")])
  else
    ({ s with
        selectedTop := s.topwear[randomIndex rTop s.topwear.length]?,
        selectedBottom := s.bottomwear[randomIndex rBottom s.bottomwear.length]? }, [])

/-- Function `saveOutfit` (script.js lines 344-360): with either selection absent it
shows the error and changes nothing; otherwise it appends a new outfit
holding the two selected garments (with `Date.now()` as id, passed here as
`now`) to `savedOutfits` and then attempts persistence. -/
def saveOutfit (s : AppState) (now : Int) (savedAt : String) (outcome : WriteOutcome)
    (store : Option StoreContent) : AppState × Option StoreContent × List Notification :=
  match s.selectedTop, s.selectedBottom with
  | some top, some bottom =>
      let s' := { s with savedOutfits := s.savedOutfits ++ [{ id := now, top := top, bottom := bottom }] }
      let saved := saveToLocalStorage s' savedAt outcome store
      (s', saved.1, saved.2 ++ [("❤️ Outfit saved!", "success")])
  | _, _ => (s, store, [("Please select a complete outfit first", "error")])

/-- Modelled from the spec: the data-model section speaks of "deleting a
garment from the wardrobe" not cascading to saved outfits, but the
repository exposes no single-garment deletion operation (only
`clearAllData`); deletion is therefore modelled, after the spec's words, as
removing the garment with the given id from both wardrobe collections. -/
def removeGarmentFromWardrobe (garmentId : Int) (s : AppState) : AppState :=
  { s with topwear := s.topwear.filter (fun g => g.id != garmentId),
           bottomwear := s.bottomwear.filter (fun g => g.id != garmentId) }

/-- The JSON object serialized by `exportWardrobe` (script.js lines
387-392): always all three collections plus an export timestamp. -/
structure ExportConfig where
  topwear : List Garment
  bottomwear : List Garment
  savedOutfits : List Outfit
  exportDate : String
  deriving Repr, DecidableEq

/-- Function `exportWardrobe` (script.js lines 386-402): builds the config object
from `app` and the current time and serializes it into the downloaded file;
the download plumbing is out of scope. -/
def exportWardrobe (s : AppState) (exportDate : String) : ExportConfig × List Notification :=
  ({ topwear := s.topwear, bottomwear := s.bottomwear,
     savedOutfits := s.savedOutfits, exportDate := exportDate },
   [("✓ Wardrobe exported!", "success")])

/-- The platform JSON byte round trip: `JSON.parse` applied to the
`JSON.stringify` output of an export config recovers the same JSON value,
with every field present. -/
def parsedOfExport (c : ExportConfig) : ParsedConfig :=
  { topwear := some c.topwear, bottomwear := some c.bottomwear,
    savedOutfits := some c.savedOutfits, savedAt := none,
    exportDate := some c.exportDate }

/-- Function `importWardrobe` (script.js lines 407-432), from the point where the
chosen file's text has been read: a throwing `JSON.parse` (`parsed = none`)
reaches only the catch block, which notifies and touches neither `app` nor
the slot; a successful parse replaces the three collections, each absent
field defaulting to `[]`, and then attempts persistence. -/
def importWardrobe (s : AppState) (store : Option StoreContent)
    (parsed : Option ParsedConfig) (savedAt : String) (outcome : WriteOutcome) :
    AppState × Option StoreContent × List Notification :=
  match parsed with
  | none => (s, store, [("✗ Error importing config", "error")])
  | some config =>
      let s' := { s with topwear := config.topwear.getD [],
                         bottomwear := config.bottomwear.getD [],
                         savedOutfits := config.savedOutfits.getD [] }
      let saved := saveToLocalStorage s' savedAt outcome store
      (s', saved.1, saved.2 ++ [("✓ Wardrobe imported successfully!", "success")])

/-- The garment built for position `i` of a bulk batch (script.js lines
287-297): id `Date.now() + i` with the per-iteration clock as a parameter,
brand `"Imported"`, the file name up to its first dot as name. -/
def mkBulkItem (clock : Nat → Int) (isoClock : Nat → String) (f : ImageFile)
    (i : Nat) (img : String) : Garment :=
  { id := clock i + (i : Int), brand := "Imported",
    name := (f.name.splitOn ".").headD "", image := img, link := none,
    source := "local", uploadedAt := isoClock i }

/-- The `.push` onto the collection chosen by the bulk category select
(script.js lines 299-303). -/
def pushItem (category : String) (g : Garment) (s : AppState) : AppState :=
  if category = "topwear" then { s with topwear := s.topwear ++ [g] }
  else { s with bottomwear := s.bottomwear ++ [g] }

/-- The `for` loop of `bulkImportImages` (script.js lines 275-310), carrying
the position `i` and the two counters: a file failing validation bumps
`failCount` and continues; a file whose read rejects is caught per-item,
bumps `failCount` and continues; otherwise the new item is pushed and
`successCount` bumps. -/
def bulkLoop (category : String) (clock : Nat → Int) (isoClock : Nat → String) :
    List ImageFile → Nat → AppState → Nat → Nat → AppState × Nat × Nat
  | [], _, s, successCount, failCount => (s, successCount, failCount)
  | f :: rest, i, s, successCount, failCount =>
    if (validateImageFile f).1 then
      match f.encodeResult with
      | some img =>
          bulkLoop category clock isoClock rest (i + 1)
            (pushItem category (mkBulkItem clock isoClock f i img) s)
            (successCount + 1) failCount
      | none => bulkLoop category clock isoClock rest (i + 1) s successCount (failCount + 1)
    else
      bulkLoop category clock isoClock rest (i + 1) s successCount (failCount + 1)

/-- What `bulkImportImages` reports: the empty-batch error, or the final
success/failure counts shown in the closing notification. -/
inductive BulkReport where
  | emptyBatch
  | done (succeeded failed : Nat)
  deriving Repr, DecidableEq

/-- Function `bulkImportImages` (script.js lines 262-325): an empty selection is
rejected up front with an error and nothing else happens; otherwise the
loop processes every file, persistence is attempted once at the end, and
the closing notification carries both counts. -/
def bulkImportImages (files : List ImageFile) (category : String) (clock : Nat → Int)
    (isoClock : Nat → String) (savedAt : String) (outcome : WriteOutcome)
    (s : AppState) (store : Option StoreContent) :
    AppState × Option StoreContent × BulkReport × List Notification :=
  if files.length = 0 then
    (s, store, .emptyBatch, [("Please select at least one image", "error")])
  else
    let looped := bulkLoop category clock isoClock files 0 s 0 0
    let saved := saveToLocalStorage looped.1 savedAt outcome store
    let message :=
      if looped.2.2 > 0 then
        "✓ Imported " ++ toString looped.2.1 ++ " items (" ++ toString looped.2.2 ++ " failed)"
      else
        "✓ Successfully imported " ++ toString looped.2.1 ++ " items!"
    (looped.1, saved.1, .done looped.2.1 looped.2.2, saved.2 ++ [(message, "success")])

/-- A batch file contributes an item exactly when it passes validation and
its read resolves. -/
def fileSucceeds (f : ImageFile) : Bool :=
  (validateImageFile f).1 && f.encodeResult.isSome

/-- The items a bulk batch appends to the chosen collection, starting at
position `i`. -/
def bulkAddedItems (clock : Nat → Int) (isoClock : Nat → String) :
    List ImageFile → Nat → List Garment
  | [], _ => []
  | f :: rest, i =>
    if (validateImageFile f).1 then
      match f.encodeResult with
      | some img => mkBulkItem clock isoClock f i img :: bulkAddedItems clock isoClock rest (i + 1)
      | none => bulkAddedItems clock isoClock rest (i + 1)
    else
      bulkAddedItems clock isoClock rest (i + 1)

/-- Appending a whole list of items to the chosen collection. -/
def pushItems (category : String) (items : List Garment) (s : AppState) : AppState :=
  if category = "topwear" then { s with topwear := s.topwear ++ items }
  else { s with bottomwear := s.bottomwear ++ items }

/-- A concrete garment used to exercise the theorems on explicit inputs. -/
def sampleGarment : Garment :=
  { id := 1, brand := "Acme", name := "Tee", image := "data-uri-top",
    link := none, source := "local", uploadedAt := "2026-01-01T00:00:00Z" }

/-- A second concrete garment. -/
def sampleGarment2 : Garment :=
  { id := 2, brand := "Acme", name := "Jeans", image := "data-uri-bottom",
    link := none, source := "local", uploadedAt := "2026-01-01T00:00:00Z" }

/-- A concrete valid image file whose read resolves. -/
def sampleFile : ImageFile :=
  { type := "image/png", size := 100, name := "shirt.png", encodeResult := some "data-uri-1" }

/-- A second concrete valid image file. -/
def sampleFile2 : ImageFile :=
  { type := "image/jpeg", size := 200, name := "pants.jpg", encodeResult := some "data-uri-2" }

/-- Claim C10: when the clear operation is confirmed it deletes the persisted slot
and resets the whole in-memory aggregate — both collections and the saved
outfits become empty and both selections become none; when the confirmation
is declined, neither the slot nor any in-memory state changes. -/
theorem clearAllData_spec (s : AppState) (store : Option StoreContent) :
    clearAllData true s store =
      ({ topwear := [], bottomwear := [], selectedTop := none,
         selectedBottom := none, savedOutfits := [] }, none,
       [("✓ All data cleared", "success")]) ∧
    clearAllData false s store = (s, store, []) :=
  ⟨rfl, rfl⟩

/-- Claim C4: load returns no data (`false`) both when no persisted slot exists
and when the stored content fails to parse; on a parse failure the slot is
kept as it was (never deleted) and the in-memory aggregate is returned
unchanged — only the load attempt is abandoned, with an error notification. -/
theorem loadFromLocalStorage_spec (s : AppState) :
    loadFromLocalStorage s none = (s, none, false, []) ∧
    loadFromLocalStorage s (some .corrupt) =
      (s, some .corrupt, false, [("✗ Error loading saved data", "error")]) :=
  ⟨rfl, rfl⟩

/-- Claim C3: a failing save distinguishes exactly the quota failure (with the
distinct free-up-space message) from any other write failure (generic
message), leaves the slot with its previous content, and does not touch the
in-memory aggregate: an outfit appended by `saveOutfit` stays in
`savedOutfits` even though the quota or unknown failure kept it from being
persisted. -/
theorem saveToLocalStorage_failure_spec (s : AppState) (savedAt : String) (now : Int)
    (store : Option StoreContent) (t b : Garment) :
    saveToLocalStorage s savedAt .quotaExceeded store =
      (store, [("⚠️ Storage limit exceeded! Delete some items to free up space.", "error")]) ∧
    saveToLocalStorage s savedAt .otherError store =
      (store, [("✗ Error saving data", "error")]) ∧
    ("⚠️ Storage limit exceeded! Delete some items to free up space." : String) ≠
      "✗ Error saving data" ∧
    (saveOutfit { s with selectedTop := some t, selectedBottom := some b }
        now savedAt .quotaExceeded store).1 =
      { s with selectedTop := some t, selectedBottom := some b,
               savedOutfits := s.savedOutfits ++ [{ id := now, top := t, bottom := b }] } ∧
    (saveOutfit { s with selectedTop := some t, selectedBottom := some b }
        now savedAt .quotaExceeded store).2.1 = store ∧
    (saveOutfit { s with selectedTop := some t, selectedBottom := some b }
        now savedAt .otherError store).1 =
      { s with selectedTop := some t, selectedBottom := some b,
               savedOutfits := s.savedOutfits ++ [{ id := now, top := t, bottom := b }] } ∧
    (saveOutfit { s with selectedTop := some t, selectedBottom := some b }
        now savedAt .otherError store).2.1 = store := by
  refine ⟨rfl, rfl, ?_, rfl, rfl, rfl, rfl⟩
  decide

/-- Claim C2: importing the parse of the bytes exported from a wardrobe `w`
reconstructs `w`'s topwear, bottomwear and savedOutfits exactly, whatever
the current aggregate was; a parse failure leaves both the in-memory
aggregate and the persisted slot completely unchanged (only an error is
shown); and any top-level collection field absent from a successfully
parsed input defaults to the empty collection. -/
theorem importExport_roundtrip_spec (w scur : AppState) (store : Option StoreContent)
    (exportDate savedAt : String) (outcome : WriteOutcome) (config : ParsedConfig) :
    ((importWardrobe scur store (some (parsedOfExport (exportWardrobe w exportDate).1))
        savedAt outcome).1.topwear = w.topwear ∧
     (importWardrobe scur store (some (parsedOfExport (exportWardrobe w exportDate).1))
        savedAt outcome).1.bottomwear = w.bottomwear ∧
     (importWardrobe scur store (some (parsedOfExport (exportWardrobe w exportDate).1))
        savedAt outcome).1.savedOutfits = w.savedOutfits) ∧
    importWardrobe scur store none savedAt outcome =
      (scur, store, [("✗ Error importing config", "error")]) ∧
    (importWardrobe scur store (some config) savedAt outcome).1 =
      { scur with topwear := config.topwear.getD [],
                  bottomwear := config.bottomwear.getD [],
                  savedOutfits := config.savedOutfits.getD [] } :=
  ⟨⟨rfl, rfl, rfl⟩, rfl, rfl⟩

/-- Claim C1: saveOutfit fails with the incomplete-selection error and leaves the
aggregate (savedOutfits included) unchanged whenever either selection is
empty; otherwise it appends to savedOutfits a new outfit embedding the two
selected garment values as snapshots, and deleting the original garments
from the wardrobe collections afterwards leaves the stored outfit, with its
embedded copies, intact. -/
theorem saveOutfit_spec (s : AppState) (t b : Garment) (now : Int) (savedAt : String)
    (outcome : WriteOutcome) (store : Option StoreContent) (garmentId : Int) :
    saveOutfit { s with selectedTop := none } now savedAt outcome store =
      ({ s with selectedTop := none }, store,
       [("Please select a complete outfit first", "error")]) ∧
    saveOutfit { s with selectedBottom := none } now savedAt outcome store =
      ({ s with selectedBottom := none }, store,
       [("Please select a complete outfit first", "error")]) ∧
    (saveOutfit { s with selectedTop := some t, selectedBottom := some b }
        now savedAt outcome store).1 =
      { s with selectedTop := some t, selectedBottom := some b,
               savedOutfits := s.savedOutfits ++ [{ id := now, top := t, bottom := b }] } ∧
    (removeGarmentFromWardrobe garmentId
        (saveOutfit { s with selectedTop := some t, selectedBottom := some b }
          now savedAt outcome store).1).savedOutfits =
      s.savedOutfits ++ [{ id := now, top := t, bottom := b }] := by
  obtain ⟨tw, bw, st, sb, so⟩ := s
  refine ⟨rfl, ?_, rfl, rfl⟩
  cases st <;> rfl

/-- Claim C5: usage reports the stored slot's length in characters divided by
1024 and again by 1024, rounded to the nearest 0.01 in JavaScript's
`Math.round` sense; in particular a stored string of 2,097,152 characters
reports 2.00 and one of 1,572,864 characters reports 1.50. -/
theorem getStorageUsage_spec :
    (∀ text : String, getStorageUsage (some text) =
        ((⌊((text.length : ℚ) / 1024 / 1024) * 100 + 1 / 2⌋ : ℤ) : ℚ) / 100) ∧
    getStorageUsage (some (String.mk (List.replicate 2097152 'a'))) = 2 ∧
    getStorageUsage (some (String.mk (List.replicate 1572864 'a'))) = 3 / 2 := by
  refine ⟨fun text => rfl, ?_, ?_⟩
  · have h1 : (String.mk (List.replicate 2097152 'a')).length =
        (List.replicate 2097152 'a').length := rfl
    show (jsRound ((((String.mk (List.replicate 2097152 'a')).length : ℚ) / 1024 / 1024)
        * 100) : ℚ) / 100 = 2
    rw [h1, List.length_replicate]
    have hfl : jsRound ((((2097152 : ℕ) : ℚ) / 1024 / 1024) * 100) = 200 := by
      unfold jsRound
      rw [Int.floor_eq_iff]
      norm_num
    rw [hfl]
    norm_num
  · have h1 : (String.mk (List.replicate 1572864 'a')).length =
        (List.replicate 1572864 'a').length := rfl
    show (jsRound ((((String.mk (List.replicate 1572864 'a')).length : ℚ) / 1024 / 1024)
        * 100) : ℚ) / 100 = 3 / 2
    rw [h1, List.length_replicate]
    have hfl : jsRound ((((1572864 : ℕ) : ℚ) / 1024 / 1024) * 100) = 150 := by
      unfold jsRound
      rw [Int.floor_eq_iff]
      norm_num
    rw [hfl]
    norm_num

/-- Claim C9: validation accepts a file exactly when its declared media type is
JPEG or PNG and its byte size is at most 5 MiB (5 * 1024 * 1024 bytes); the
decision reads only the declared type and size, never the content. -/
theorem validateImageFile_spec (f : ImageFile) :
    (validateImageFile f).1 = true ↔
      (f.type = "image/jpeg" ∨ f.type = "image/png") ∧ f.size ≤ 5 * 1024 * 1024 := by
  obtain ⟨ty, sz, nm, enc⟩ := f
  by_cases hj : ty = "image/jpeg"
  · subst hj
    simp [validateImageFile, validTypes, MAX_IMAGE_SIZE]
    split <;> simp_all
  · by_cases hp : ty = "image/png"
    · subst hp
      simp [validateImageFile, validTypes, MAX_IMAGE_SIZE]
      split <;> simp_all
    · simp [validateImageFile, validTypes, hj, hp]

/-- The random index is in range whenever the random draw lies in `[0, 1)`
and the collection is non-empty. -/
theorem randomIndex_lt (r : ℚ) (h0 : 0 ≤ r) (h1 : r < 1) (n : Nat) (hn : 0 < n) :
    randomIndex r n < n := by
  unfold randomIndex
  have hnQ : (0 : ℚ) < n := by positivity
  have hnn : 0 ≤ ⌊r * (n : ℚ)⌋ := Int.floor_nonneg.mpr (mul_nonneg h0 hnQ.le)
  have hlt : ⌊r * (n : ℚ)⌋ < (n : ℤ) := by
    apply Int.floor_lt.mpr
    push_cast
    calc r * n < 1 * n := mul_lt_mul_of_pos_right h1 hnQ
      _ = n := one_mul _
  omega

/-- Claim C6: shuffle fails with the empty-collection error and leaves the whole
state (selections included) unchanged whenever topwear or bottomwear is
empty; with both non-empty it sets both selections, atomically in one step,
to members of the respective collections drawn by independent random
indices; and each index `k < n` is drawn exactly when the uniform draw `r`
falls in `[k/n, (k+1)/n)` — an interval of measure `1/n`, so a uniform `r`
induces a uniform index. -/
theorem shuffleOutfit_spec (s : AppState) (rTop rBottom : ℚ)
    (hT0 : 0 ≤ rTop) (hT1 : rTop < 1) (hB0 : 0 ≤ rBottom) (hB1 : rBottom < 1) :
    shuffleOutfit { s with topwear := [] } rTop rBottom =
      ({ s with topwear := [] },
       [("Please add at least one top and one bottom first", "error")]) ∧
    shuffleOutfit { s with bottomwear := [] } rTop rBottom =
      ({ s with bottomwear := [] },
       [("Please add at least one top and one bottom first", "error")]) ∧
    (∀ (g : Garment) (gs : List Garment) (b : Garment) (bs : List Garment),
      ∃ t ∈ g :: gs, ∃ bo ∈ b :: bs,
        shuffleOutfit { s with topwear := g :: gs, bottomwear := b :: bs } rTop rBottom =
          ({ s with topwear := g :: gs, bottomwear := b :: bs,
                    selectedTop := some t, selectedBottom := some bo }, [])) ∧
    (∀ n k : Nat, 0 < n → k < n →
      (randomIndex rTop n = k ↔ (k : ℚ) / n ≤ rTop ∧ rTop < ((k : ℚ) + 1) / n)) := by
  refine ⟨by simp [shuffleOutfit], by simp [shuffleOutfit], ?_, ?_⟩
  · intro g gs b bs
    have hi1 : randomIndex rTop (g :: gs).length < (g :: gs).length :=
      randomIndex_lt rTop hT0 hT1 _ (Nat.succ_pos _)
    have hi2 : randomIndex rBottom (b :: bs).length < (b :: bs).length :=
      randomIndex_lt rBottom hB0 hB1 _ (Nat.succ_pos _)
    refine ⟨(g :: gs)[randomIndex rTop (g :: gs).length], List.getElem_mem hi1,
            (b :: bs)[randomIndex rBottom (b :: bs).length], List.getElem_mem hi2, ?_⟩
    simp only [shuffleOutfit]
    rw [if_neg (by simp)]
    rw [List.getElem?_eq_getElem hi1, List.getElem?_eq_getElem hi2]
  · intro n k hn hk
    unfold randomIndex
    have hnQ : (0 : ℚ) < n := by positivity
    have hnn : 0 ≤ ⌊rTop * (n : ℚ)⌋ := Int.floor_nonneg.mpr (mul_nonneg hT0 hnQ.le)
    constructor
    · intro h
      have hfk : ⌊rTop * (n : ℚ)⌋ = (k : ℤ) := by omega
      have hiff := Int.floor_eq_iff.mp hfk
      constructor
      · rw [div_le_iff₀ hnQ]
        exact_mod_cast hiff.1
      · rw [lt_div_iff₀ hnQ]
        have := hiff.2
        push_cast at this ⊢
        linarith
    · rintro ⟨ha, hb⟩
      have hfk : ⌊rTop * (n : ℚ)⌋ = (k : ℤ) := by
        apply Int.floor_eq_iff.mpr
        constructor
        · push_cast
          rw [div_le_iff₀ hnQ] at ha
          linarith
        · push_cast
          rw [lt_div_iff₀ hnQ] at hb
          linarith
      omega

/-- Witness for the shuffle theorem at the fresh aggregate and the draw
one half for both collections. -/
theorem shuffleOutfit_spec_witness :
    shuffleOutfit { appInit with topwear := [] } (1 / 2) (1 / 2) =
      ({ appInit with topwear := [] },
       [("Please add at least one top and one bottom first", "error")]) ∧
    shuffleOutfit { appInit with bottomwear := [] } (1 / 2) (1 / 2) =
      ({ appInit with bottomwear := [] },
       [("Please add at least one top and one bottom first", "error")]) ∧
    (∀ (g : Garment) (gs : List Garment) (b : Garment) (bs : List Garment),
      ∃ t ∈ g :: gs, ∃ bo ∈ b :: bs,
        shuffleOutfit { appInit with topwear := g :: gs, bottomwear := b :: bs }
            (1 / 2) (1 / 2) =
          ({ appInit with topwear := g :: gs, bottomwear := b :: bs,
                          selectedTop := some t, selectedBottom := some bo }, [])) ∧
    (∀ n k : Nat, 0 < n → k < n →
      (randomIndex (1 / 2) n = k ↔ (k : ℚ) / n ≤ 1 / 2 ∧ (1 / 2 : ℚ) < ((k : ℚ) + 1) / n)) :=
  shuffleOutfit_spec appInit (1 / 2) (1 / 2) (by norm_num) (by norm_num)
    (by norm_num) (by norm_num)

/-- Pushing a head item first and the remaining items after is the same as
pushing the whole list. -/
theorem pushItems_cons (category : String) (g : Garment) (items : List Garment)
    (s : AppState) :
    pushItems category (g :: items) s = pushItems category items (pushItem category g s) := by
  obtain ⟨tw, bw, st, sb, so⟩ := s
  unfold pushItems pushItem
  by_cases hc : category = "topwear" <;> simp [hc]

/-- The bulk loop appends exactly the items of `bulkAddedItems` to the
chosen collection and adds the number of succeeding respectively failing
files to the two counters. -/
theorem bulkLoop_eq (category : String) (clock : Nat → Int) (isoClock : Nat → String) :
    ∀ (files : List ImageFile) (i : Nat) (s : AppState) (a b : Nat),
      bulkLoop category clock isoClock files i s a b =
        (pushItems category (bulkAddedItems clock isoClock files i) s,
         a + files.countP fileSucceeds,
         b + files.countP (fun f => !(fileSucceeds f))) := by
  intro files
  induction files with
  | nil =>
      intro i s a b
      obtain ⟨tw, bw, st, sb, so⟩ := s
      simp [bulkLoop, bulkAddedItems, pushItems]
  | cons f rest ih =>
      intro i s a b
      by_cases hv : (validateImageFile f).1
      · rcases he : f.encodeResult with _ | img
        · have hs : fileSucceeds f = false := by
            simp [fileSucceeds, hv, he]
          simp only [bulkLoop, bulkAddedItems, hv, he, if_true, List.countP_cons, hs,
            Bool.not_false, ih, Prod.mk.injEq]
          simp <;> omega
        · have hs : fileSucceeds f = true := by
            simp [fileSucceeds, hv, he]
          simp only [bulkLoop, bulkAddedItems, hv, he, if_true, List.countP_cons, hs,
            Bool.not_true, ih, pushItems_cons, Prod.mk.injEq]
          simp <;> omega
      · have hs : fileSucceeds f = false := by
          simp [fileSucceeds, hv]
        simp only [bulkLoop, bulkAddedItems, hv, if_false, List.countP_cons, hs,
          Bool.not_false, ih, Prod.mk.injEq]
        simp <;> omega

/-- The number of items a batch contributes is the number of files that
pass validation and whose read resolves. -/
theorem bulkAddedItems_length (clock : Nat → Int) (isoClock : Nat → String) :
    ∀ (files : List ImageFile) (i : Nat),
      (bulkAddedItems clock isoClock files i).length = files.countP fileSucceeds := by
  intro files
  induction files with
  | nil => intro i; simp [bulkAddedItems]
  | cons f rest ih =>
      intro i
      by_cases hv : (validateImageFile f).1
      · rcases he : f.encodeResult with _ | img
        · have hs : fileSucceeds f = false := by simp [fileSucceeds, hv, he]
          simp [bulkAddedItems, hv, he, List.countP_cons, hs, ih]
        · have hs : fileSucceeds f = true := by simp [fileSucceeds, hv, he]
          simp [bulkAddedItems, hv, he, List.countP_cons, hs, ih]
      · have hs : fileSucceeds f = false := by simp [fileSucceeds, hv]
        simp [bulkAddedItems, hv, List.countP_cons, hs, ih]

/-- Every id handed out inside a batch is the per-position clock value plus
the position, at some position at or past the starting one. -/
theorem bulkAddedItems_id_exists (clock : Nat → Int) (isoClock : Nat → String) :
    ∀ (files : List ImageFile) (i : Nat) (g : Garment),
      g ∈ bulkAddedItems clock isoClock files i →
        ∃ j, i ≤ j ∧ g.id = clock j + (j : Int) := by
  intro files
  induction files with
  | nil => intro i g hg; simp [bulkAddedItems] at hg
  | cons f rest ih =>
      intro i g hg
      by_cases hv : (validateImageFile f).1
      · rcases he : f.encodeResult with _ | img
        · simp only [bulkAddedItems, hv, he, if_true] at hg
          obtain ⟨j, hij, hid⟩ := ih (i + 1) g hg
          exact ⟨j, by omega, hid⟩
        · simp only [bulkAddedItems, hv, he, if_true, List.mem_cons] at hg
          rcases hg with hg | hg
          · exact ⟨i, le_refl i, by rw [hg]; rfl⟩
          · obtain ⟨j, hij, hid⟩ := ih (i + 1) g hg
            exact ⟨j, by omega, hid⟩
      · simp only [bulkAddedItems, hv, if_false] at hg
        obtain ⟨j, hij, hid⟩ := ih (i + 1) g hg
        exact ⟨j, by omega, hid⟩

/-- With a non-decreasing clock the ids handed out inside one batch are
strictly increasing along the batch. -/
theorem bulkAddedItems_ids_sorted (clock : Nat → Int) (isoClock : Nat → String)
    (hmono : ∀ i j, i ≤ j → clock i ≤ clock j) :
    ∀ (files : List ImageFile) (i : Nat),
      ((bulkAddedItems clock isoClock files i).map Garment.id).Pairwise (· < ·) := by
  intro files
  induction files with
  | nil => intro i; simp [bulkAddedItems]
  | cons f rest ih =>
      intro i
      by_cases hv : (validateImageFile f).1
      · rcases he : f.encodeResult with _ | img
        · simpa only [bulkAddedItems, hv, he, if_true] using ih (i + 1)
        · simp only [bulkAddedItems, hv, he, if_true, List.map_cons]
          refine List.Pairwise.cons ?_ (ih (i + 1))
          intro y hy
          simp only [List.mem_map] at hy
          obtain ⟨g, hg, rfl⟩ := hy
          obtain ⟨j, hij, hid⟩ := bulkAddedItems_id_exists clock isoClock rest (i + 1) g hg
          rw [hid]
          show clock i + (i : Int) < clock j + (j : Int)
          have h1 := hmono i j (by omega)
          omega
      · simpa only [bulkAddedItems, hv, if_false] using ih (i + 1)

/-- The two counters of a batch partition it: every file either contributes
an item or is counted as failed. -/
theorem countP_succeeds_split (l : List ImageFile) :
    l.countP fileSucceeds + l.countP (fun x => !(fileSucceeds x)) = l.length := by
  induction l with
  | nil => rfl
  | cons x t ih =>
      by_cases hx : fileSucceeds x <;> simp [List.countP_cons, hx] <;> omega

/-- On a non-empty batch, the final aggregate is the input with exactly the
batch's contributed items appended to the chosen collection. -/
theorem bulkImportImages_state (f : ImageFile) (rest : List ImageFile) (category : String)
    (clock : Nat → Int) (isoClock : Nat → String) (savedAt : String)
    (outcome : WriteOutcome) (s : AppState) (store : Option StoreContent) :
    (bulkImportImages (f :: rest) category clock isoClock savedAt outcome s store).1 =
      pushItems category (bulkAddedItems clock isoClock (f :: rest) 0) s := by
  unfold bulkImportImages
  rw [if_neg (by simp)]
  simp only [bulkLoop_eq]

/-- On a non-empty batch, the reported counts are the number of succeeding
files and the number of failing files. -/
theorem bulkImportImages_report (f : ImageFile) (rest : List ImageFile) (category : String)
    (clock : Nat → Int) (isoClock : Nat → String) (savedAt : String)
    (outcome : WriteOutcome) (s : AppState) (store : Option StoreContent) :
    (bulkImportImages (f :: rest) category clock isoClock savedAt outcome s store).2.2.1 =
      .done ((f :: rest).countP fileSucceeds)
            ((f :: rest).countP (fun x => !(fileSucceeds x))) := by
  unfold bulkImportImages
  rw [if_neg (by simp)]
  simp only [bulkLoop_eq, Nat.zero_add]

/-- Claim C7 (amended to non-empty batches): for every non-empty batch of `N`
files of which `K` fail validation or encoding, bulkAdd appends exactly
`N - K` items to the chosen category (the other collections untouched, as
`pushItems` shows) and reports `succeeded = N - K` and `failed = K`; the
processing runs through the whole list, so no single failure aborts the
remaining files. -/
theorem bulkImportImages_counts_spec (f : ImageFile) (rest : List ImageFile)
    (category : String) (clock : Nat → Int) (isoClock : Nat → String)
    (savedAt : String) (outcome : WriteOutcome) (s : AppState)
    (store : Option StoreContent) :
    (bulkImportImages (f :: rest) category clock isoClock savedAt outcome s store).2.2.1 =
      .done ((f :: rest).length - (f :: rest).countP (fun x => !(fileSucceeds x)))
            ((f :: rest).countP (fun x => !(fileSucceeds x))) ∧
    (bulkImportImages (f :: rest) category clock isoClock savedAt outcome s store).1 =
      pushItems category (bulkAddedItems clock isoClock (f :: rest) 0) s ∧
    (bulkAddedItems clock isoClock (f :: rest) 0).length =
      (f :: rest).length - (f :: rest).countP (fun x => !(fileSucceeds x)) := by
  have hsplit := countP_succeeds_split (f :: rest)
  have hS : (f :: rest).countP fileSucceeds =
      (f :: rest).length - (f :: rest).countP (fun x => !(fileSucceeds x)) := by omega
  refine ⟨?_, bulkImportImages_state f rest category clock isoClock savedAt outcome s store, ?_⟩
  · rw [bulkImportImages_report f rest category clock isoClock savedAt outcome s store, hS]
  · rw [bulkAddedItems_length, hS]

/-- Claim C7 counterexample: on the empty batch — zero files, zero failures — the
code does not report `succeeded = 0, failed = 0`; it rejects the batch up
front with the select-at-least-one error and reports no counts at all. -/
theorem bulkImportImages_empty_batch :
    (bulkImportImages [] "topwear" (fun _ => 0) (fun _ => "t") "d" .success
        appInit none).2.2.1 = .emptyBatch ∧
    BulkReport.emptyBatch ≠ BulkReport.done 0 0 ∧
    (bulkImportImages [] "topwear" (fun _ => 0) (fun _ => "t") "d" .success
        appInit none).1 = appInit :=
  ⟨rfl, by decide, rfl⟩

/-- Claim C8: within one non-empty batch, assuming the per-position clock is
non-decreasing across the batch, the ids handed to the successfully added
items (per-position timestamp plus positional offset) are pairwise
distinct; the state equation ties those items to what the bulk import
actually appended. -/
theorem bulkImportImages_ids_distinct (f : ImageFile) (rest : List ImageFile)
    (category : String) (clock : Nat → Int) (isoClock : Nat → String)
    (savedAt : String) (outcome : WriteOutcome) (s : AppState)
    (store : Option StoreContent)
    (hmono : ∀ i j, i ≤ j → clock i ≤ clock j) :
    ((bulkAddedItems clock isoClock (f :: rest) 0).map Garment.id).Pairwise (· ≠ ·) ∧
    (bulkImportImages (f :: rest) category clock isoClock savedAt outcome s store).1 =
      pushItems category (bulkAddedItems clock isoClock (f :: rest) 0) s :=
  ⟨(bulkAddedItems_ids_sorted clock isoClock hmono (f :: rest) 0).imp ne_of_lt,
   bulkImportImages_state f rest category clock isoClock savedAt outcome s store⟩

/-- Witness for the id-distinctness theorem: a two-file batch under a
constant (hence non-decreasing) clock. -/
theorem bulkImportImages_ids_distinct_witness :
    ((bulkAddedItems (fun _ => 0) (fun _ => "t") [sampleFile, sampleFile2] 0).map
        Garment.id).Pairwise (· ≠ ·) ∧
    (bulkImportImages [sampleFile, sampleFile2] "topwear" (fun _ => 0) (fun _ => "t")
        "d" .success appInit none).1 =
      pushItems "topwear"
        (bulkAddedItems (fun _ => 0) (fun _ => "t") [sampleFile, sampleFile2] 0) appInit :=
  bulkImportImages_ids_distinct sampleFile [sampleFile2] "topwear" (fun _ => 0)
    (fun _ => "t") "d" .success appInit none (fun _ _ _ => le_refl 0)
